import Mathlib

/-!
Shallow embedding of the client-side Dashboard Data & Filter Engine of the
Dashboard_fault_tolerance repository, together with theorems settling the
frozen claims about it.

Embedded source files:
* `frontend/src/types/index.ts` (data model),
* `frontend/src/context/DashboardContext.tsx` (reducer and the four exposed
  actions `loadDashboardData`, `searchMachines`, `clearFilters`,
  `setSelectedDate`),
* the `SearchFilters` component (300ms debounce effect),
* the `HourlyTrendChart` component (hourly aggregation `chartData`),
* the `CustomerTrendChart` component (customer aggregation `chartData`).

JS `Date` objects are modelled as calendar triples; JS numbers appearing in
the customer-share heuristic are modelled as rationals with JS `Math.round`
as the floor of `q + 1/2`; a rejected promise is modelled as `Except.error`
carrying the error message string.  Async action creators are modelled as
pure functions taking the outcome of each network call as an argument and
returning the final state together with the list of issued network requests;
the states after each `dispatch`, in program order, form the cycle's trace.
-/

namespace Dashboard

/-- Per-status counts record, as in types/index.ts `status_counts`. -/
structure StatusCounts where
  Normal : Nat
  Satisfactory : Nat
  Alert : Nat
  Unacceptable : Nat
deriving DecidableEq

/-- KPIStats from types/index.ts. -/
structure KPIStats where
  total_readings : Nat
  status_counts : StatusCounts
deriving DecidableEq

/-- Machine from types/index.ts.  The status union type is modelled as a
string, which is how the filter comparisons treat it. -/
structure Machine where
  _id : String
  machineName : String
  customer : String
  area : String
  subarea : String
  machineType : Option String := none
  status : String
  ingestedDate : Option String := none
deriving DecidableEq

/-- StatusTrend from types/index.ts. -/
structure StatusTrend where
  date : String
  status_counts : StatusCounts
deriving DecidableEq

/-- HourlyTrend from types/index.ts. -/
structure HourlyTrend where
  hour : Nat
  count : Nat
deriving DecidableEq

/-- The searchFilters record of DashboardState (five string fields). -/
structure SearchFilters where
  customer : String
  area : String
  subarea : String
  machineName : String
  status : String
deriving DecidableEq

/-- A `Partial` searchFilters record: absent keys are `none`. -/
structure PartialFilters where
  customer : Option String := none
  area : Option String := none
  subarea : Option String := none
  machineName : Option String := none
  status : Option String := none
deriving DecidableEq

/-- A JS `Date`, reduced to the calendar components the engine reads. -/
structure Date where
  year : Nat
  month : Nat
  day : Nat
deriving DecidableEq

/-- DashboardState from types/index.ts. -/
structure DashboardState where
  selectedDate : Date
  machines : List Machine
  filteredMachines : List Machine
  kpiStats : Option KPIStats
  statusTrends : List StatusTrend
  hourlyTrends : List HourlyTrend
  loading : Bool
  error : Option String
  searchFilters : SearchFilters
deriving DecidableEq

/-- The all-empty filter record used by `initialState`. -/
def emptyFilters : SearchFilters :=
  { customer := "", area := "", subarea := "", machineName := "", status := "" }

/-- initialState from DashboardContext.tsx; `new Date()` at module load is
the parameter `today`. -/
def initialState (today : Date) : DashboardState :=
  { selectedDate := today
    machines := []
    filteredMachines := []
    kpiStats := none
    statusTrends := []
    hourlyTrends := []
    loading := false
    error := none
    searchFilters := emptyFilters }

/-- The DashboardAction union from DashboardContext.tsx. -/
inductive DashboardAction where
  | SET_LOADING (payload : Bool)
  | SET_ERROR (payload : Option String)
  | SET_SELECTED_DATE (payload : Date)
  | SET_MACHINES (payload : List Machine)
  | SET_FILTERED_MACHINES (payload : List Machine)
  | SET_KPI_STATS (payload : Option KPIStats)
  | SET_STATUS_TRENDS (payload : List StatusTrend)
  | SET_HOURLY_TRENDS (payload : List HourlyTrend)
  | SET_SEARCH_FILTERS (payload : PartialFilters)
  | CLEAR_FILTERS
  | RESET_DASHBOARD
deriving DecidableEq

/-- JS object spread `{...state.searchFilters, ...action.payload}`: keys
present in the partial record overwrite, absent keys are kept. -/
def mergeFilters (cur : SearchFilters) (p : PartialFilters) : SearchFilters :=
  { customer := p.customer.getD cur.customer
    area := p.area.getD cur.area
    subarea := p.subarea.getD cur.subarea
    machineName := p.machineName.getD cur.machineName
    status := p.status.getD cur.status }

/-- dashboardReducer from DashboardContext.tsx.  `today` is the module-load
date that `initialState` (used by RESET_DASHBOARD) was built from. -/
def dashboardReducer (today : Date) (state : DashboardState)
    (action : DashboardAction) : DashboardState :=
  match action with
  | .SET_LOADING payload => { state with loading := payload }
  | .SET_ERROR payload => { state with error := payload, loading := false }
  | .SET_SELECTED_DATE payload => { state with selectedDate := payload }
  | .SET_MACHINES payload =>
      { state with machines := payload, filteredMachines := payload }
  | .SET_FILTERED_MACHINES payload => { state with filteredMachines := payload }
  | .SET_KPI_STATS payload => { state with kpiStats := payload }
  | .SET_STATUS_TRENDS payload => { state with statusTrends := payload }
  | .SET_HOURLY_TRENDS payload => { state with hourlyTrends := payload }
  | .SET_SEARCH_FILTERS payload =>
      { state with searchFilters := mergeFilters state.searchFilters payload }
  | .CLEAR_FILTERS =>
      { state with searchFilters := (initialState today).searchFilters
                   filteredMachines := state.machines }
  | .RESET_DASHBOARD => initialState today

/-! ### date-fns helpers used by the action creators -/

/-- Leap-year test (Gregorian). -/
def isLeapYear (y : Nat) : Bool :=
  (y % 4 = 0 && y % 100 ≠ 0) || y % 400 = 0

/-- Number of days of a calendar month (month is 1-based). -/
def daysInMonth (y m : Nat) : Nat :=
  if m = 2 then (if isLeapYear y then 29 else 28)
  else if m = 4 || m = 6 || m = 9 || m = 11 then 30
  else 31

/-- date-fns `startOfMonth`. -/
def startOfMonth (d : Date) : Date := { d with day := 1 }

/-- date-fns `endOfMonth`. -/
def endOfMonth (d : Date) : Date := { d with day := daysInMonth d.year d.month }

/-- Zero-pad a number to two digits. -/
def pad2 (n : Nat) : String :=
  if n < 10 then "0" ++ toString n else toString n

/-- Zero-pad a number to four digits (years below 1000 do not occur in use). -/
def pad4 (n : Nat) : String :=
  if n < 10 then "000" ++ toString n
  else if n < 100 then "00" ++ toString n
  else if n < 1000 then "0" ++ toString n
  else toString n

/-- date-fns `format(d, 'yyyy-MM-dd')`. -/
def formatDate (d : Date) : String :=
  pad4 d.year ++ "-" ++ pad2 d.month ++ "-" ++ pad2 d.day

/-! ### the Data Access Gateway requests issued by the action creators -/

/-- One parameterized read request against the backend (services/api.ts). -/
inductive NetworkRequest where
  | getAllMachines (startDate endDate : String)
  | getKPIs (startDate endDate : String)
  | getStatusTrends (startDate endDate : String)
  | getHourlyTrends (startDate endDate : String)
  | searchMachines (params : List (String × String))
deriving DecidableEq

/-- The data produced by the four parallel gateway calls of a date-range
load, once all of them succeed. -/
structure FetchedData where
  machines : List Machine
  kpiStats : KPIStats
  statusTrends : List StatusTrend
  hourlyTrends : List HourlyTrend

/-- Whether an `Except` is an error (a rejected promise). -/
def isErr {ε α : Type} : Except ε α → Bool
  | .error _ => true
  | .ok _ => false

/-- JS `Promise.all` over the four parallel gateway calls: all fulfilled
yields the tuple of results; otherwise the group rejects with a rejection's
message (modelled as the first one in argument order). -/
def promiseAll4 (rm : Except String (List Machine))
    (rk : Except String KPIStats)
    (rs : Except String (List StatusTrend))
    (rh : Except String (List HourlyTrend)) : Except String FetchedData :=
  match rm with
  | .error e => .error e
  | .ok m =>
    match rk with
    | .error e => .error e
    | .ok k =>
      match rs with
      | .error e => .error e
      | .ok s =>
        match rh with
        | .error e => .error e
        | .ok h =>
            .ok { machines := m, kpiStats := k, statusTrends := s,
                  hourlyTrends := h }

/-! ### loadDashboardData

The action creator is modelled by the sequence of actions it dispatches, in
program order, as a function of the outcome of the `Promise.all`; the four
issued requests are returned alongside.  In the catch branch the dispatched
message is the rejection's `error.message`. -/

/-- The dispatch sequence of `loadDashboardData` for a given fetch outcome. -/
def loadDispatches (res : Except String FetchedData) : List DashboardAction :=
  [DashboardAction.SET_LOADING true, DashboardAction.SET_ERROR none] ++
  match res with
  | .ok d =>
      [DashboardAction.SET_MACHINES d.machines,
       DashboardAction.SET_KPI_STATS (some d.kpiStats),
       DashboardAction.SET_STATUS_TRENDS d.statusTrends,
       DashboardAction.SET_HOURLY_TRENDS d.hourlyTrends,
       DashboardAction.SET_LOADING false]
  | .error msg => [DashboardAction.SET_ERROR (some msg)]

/-- The four parallel requests issued for the month-aligned range of `date`. -/
def loadRequests (date : Date) : List NetworkRequest :=
  let startDate := formatDate (startOfMonth date)
  let endDate := formatDate (endOfMonth date)
  [NetworkRequest.getAllMachines startDate endDate,
   NetworkRequest.getKPIs startDate endDate,
   NetworkRequest.getStatusTrends startDate endDate,
   NetworkRequest.getHourlyTrends startDate endDate]

/-- loadDashboardData from DashboardContext.tsx: final state and issued
requests, as a function of the four gateway call outcomes. -/
def loadDashboardData (today : Date) (s : DashboardState) (date : Date)
    (rm : Except String (List Machine)) (rk : Except String KPIStats)
    (rs : Except String (List StatusTrend))
    (rh : Except String (List HourlyTrend)) :
    DashboardState × List NetworkRequest :=
  ((loadDispatches (promiseAll4 rm rk rs rh)).foldl (dashboardReducer today) s,
   loadRequests date)

/-- The per-dispatch state trace of `loadDashboardData` (head is the state
before the first dispatch). -/
def loadTrace (today : Date) (s : DashboardState)
    (rm : Except String (List Machine)) (rk : Except String KPIStats)
    (rs : Except String (List StatusTrend))
    (rh : Except String (List HourlyTrend)) : List DashboardState :=
  (loadDispatches (promiseAll4 rm rk rs rh)).scanl (dashboardReducer today) s

/-! ### searchMachines -/

/-- Case-insensitive-free JS `String.includes`: whether `needle` occurs as a
contiguous substring of `hay`. -/
def strIncludes (hay needle : String) : Bool :=
  decide (needle.data <:+: hay.data)

/-- JS `String.toLowerCase` (ASCII range, which is what the data uses),
written by structural recursion over the character list. -/
def strToLower (s : String) : String :=
  String.mk (s.data.map Char.toLower)

/-- JS falsiness of a `Partial` string field: `!x` is true exactly for an
absent or empty value. -/
def jsFalsy : Option String → Bool
  | none => true
  | some s => s = ""

/-- The client-side fallback predicate of searchMachines (lines 158-168 of
DashboardContext.tsx).  Each clause is `!filters.x || ...`; the value access
on the right of the short-circuit is modelled by `getD ""` (unreachable when
the field is falsy). -/
def matchesFilters (filters : PartialFilters) (machine : Machine) : Bool :=
  let matchesSearch :=
    jsFalsy filters.machineName ||
    strIncludes (strToLower machine.machineName)
      (strToLower (filters.machineName.getD "")) ||
    strIncludes (strToLower machine._id) (strToLower (filters.machineName.getD ""))
  let matchesCustomer :=
    jsFalsy filters.customer || machine.customer = filters.customer.getD ""
  let matchesArea :=
    jsFalsy filters.area || machine.area = filters.area.getD ""
  let matchesSubarea :=
    jsFalsy filters.subarea || machine.subarea = filters.subarea.getD ""
  let matchesStatus :=
    jsFalsy filters.status || machine.status = filters.status.getD ""
  matchesSearch && matchesCustomer && matchesArea && matchesSubarea &&
    matchesStatus

/-- The client-side fallback filter of searchMachines. -/
def clientFilterMachines (filters : PartialFilters) (machines : List Machine) :
    List Machine :=
  machines.filter (matchesFilters filters)

/-- One `Object.entries` pair of a `Partial` filter field, keeping only
truthy values; entry order is the declaration order of the record. -/
def entryOf (key : String) : Option String → List (String × String)
  | none => []
  | some v => if v = "" then [] else [(key, v)]

/-- The `searchParams` record built by searchMachines: truthy fields only,
with `machineName` renamed to `machine_name`. -/
def searchParamsOf (filters : PartialFilters) : List (String × String) :=
  entryOf "customer" filters.customer ++
  entryOf "area" filters.area ++
  entryOf "subarea" filters.subarea ++
  entryOf "machine_name" filters.machineName ++
  entryOf "status" filters.status

/-- The dispatch sequence of `searchMachines`: set loading, merge the filter
edit, then either the backend result verbatim or the client-side fallback,
then clear loading.  The fallback filters the `machines` of the captured
state `s`. -/
def searchDispatches (s : DashboardState) (filters : PartialFilters)
    (res : Except String (List Machine)) : List DashboardAction :=
  [DashboardAction.SET_LOADING true,
   DashboardAction.SET_SEARCH_FILTERS filters] ++
  (match res with
   | .ok ms => [DashboardAction.SET_FILTERED_MACHINES ms]
   | .error _ =>
       [DashboardAction.SET_FILTERED_MACHINES
          (clientFilterMachines filters s.machines)]) ++
  [DashboardAction.SET_LOADING false]

/-- searchMachines from DashboardContext.tsx: final state and the issued
backend search request, as a function of that call's outcome. -/
def searchMachines (today : Date) (s : DashboardState)
    (filters : PartialFilters) (res : Except String (List Machine)) :
    DashboardState × List NetworkRequest :=
  ((searchDispatches s filters res).foldl (dashboardReducer today) s,
   [NetworkRequest.searchMachines
      (searchParamsOf filters ++
       [("start_date", formatDate (startOfMonth s.selectedDate)),
        ("end_date", formatDate (endOfMonth s.selectedDate))])])

/-- The per-dispatch state trace of `searchMachines`. -/
def searchTrace (today : Date) (s : DashboardState)
    (filters : PartialFilters) (res : Except String (List Machine)) :
    List DashboardState :=
  (searchDispatches s filters res).scanl (dashboardReducer today) s

/-! ### clearFilters and setSelectedDate -/

/-- clearFilters from DashboardContext.tsx: a single CLEAR_FILTERS dispatch
and no network request. -/
def clearFiltersAction (today : Date) (s : DashboardState) :
    DashboardState × List NetworkRequest :=
  (dashboardReducer today s DashboardAction.CLEAR_FILTERS, [])

/-- setSelectedDate from DashboardContext.tsx: dispatch SET_SELECTED_DATE and
run loadDashboardData on the new date. -/
def setSelectedDate (today : Date) (s : DashboardState) (date : Date)
    (rm : Except String (List Machine)) (rk : Except String KPIStats)
    (rs : Except String (List StatusTrend))
    (rh : Except String (List HourlyTrend)) :
    DashboardState × List NetworkRequest :=
  loadDashboardData today
    (dashboardReducer today s (DashboardAction.SET_SELECTED_DATE date))
    date rm rk rs rh

/-! ### the SearchFilters debounce effect

The component holds `searchTerm` and `localFilters`; every edit re-runs the
effect, which cancels the pending timer (the effect cleanup) and schedules a
new one 300ms later; when a timer fires it calls `searchMachines` with
`{...localFilters, machineName: searchTerm}` provided the search term or
some local filter field is non-empty.  An edit event is a timestamped
assignment of the two pieces of component state; the machine folds over the
time-ordered events and returns the fired search calls as (time, criteria)
pairs. -/

/-- One timestamped edit of the SearchFilters component state. -/
structure EditEvent where
  time : Nat
  searchTerm : String
  localFilters : SearchFilters
deriving DecidableEq

/-- The firing condition of the debounced effect:
searchTerm or some localFilters value is truthy. -/
def shouldFire (e : EditEvent) : Bool :=
  e.searchTerm ≠ "" || e.localFilters.customer ≠ "" ||
  e.localFilters.area ≠ "" || e.localFilters.subarea ≠ "" ||
  e.localFilters.machineName ≠ "" || e.localFilters.status ≠ ""

/-- The criteria passed to `searchMachines` when the timer fires. -/
def criteriaOf (e : EditEvent) : SearchFilters :=
  { e.localFilters with machineName := e.searchTerm }

/-- Folds the edit events with at most one pending timer: a pending timer
scheduled by the edit `p` fires at `p.time + 300` unless a further edit
arrives strictly before that, which cancels it and schedules its own. -/
def debounceAux : Option EditEvent → List EditEvent →
    List (Nat × SearchFilters)
  | none, [] => []
  | some p, [] => if shouldFire p then [(p.time + 300, criteriaOf p)] else []
  | none, e :: rest => debounceAux (some e) rest
  | some p, e :: rest =>
      if p.time + 300 ≤ e.time then
        (if shouldFire p then [(p.time + 300, criteriaOf p)] else []) ++
          debounceAux (some e) rest
      else debounceAux (some e) rest

/-- The search calls fired by a time-ordered sequence of edits. -/
def debounceRun (es : List EditEvent) : List (Nat × SearchFilters) :=
  debounceAux none es

/-! ### HourlyTrendChart aggregation -/

/-- One chart.js dataset of the hourly chart (label and counts). -/
structure HourlyDataset where
  label : String
  data : List Nat
deriving DecidableEq

/-- The chart-ready result of the hourly aggregation. -/
structure HourlyChartData where
  labels : List String
  datasets : List HourlyDataset
deriving DecidableEq

/-- Comparison used by `[...hourlyTrends].sort((a, b) => a.hour - b.hour)`. -/
def hourLe (a b : HourlyTrend) : Prop := a.hour ≤ b.hour

instance : DecidableRel hourLe := fun a b => Nat.decLe a.hour b.hour

instance : IsTotal HourlyTrend hourLe := ⟨fun a b => Nat.le_total a.hour b.hour⟩

instance : IsTrans HourlyTrend hourLe :=
  ⟨fun _ _ _ h h' => Nat.le_trans h h'⟩

namespace HourlyTrendChart

/-- The label of an hour: `0${hour}:00` below 10, `${hour}:00` otherwise. -/
def hourLabel (hour : Nat) : String :=
  if hour < 10 then "0" ++ toString hour ++ ":00" else toString hour ++ ":00"

/-- chartData of HourlyTrendChart.tsx: empty input yields the empty result;
otherwise trends are sorted ascending by hour, labelled, and the counts are
passed through.  `viewMachines` is the component's view-mode toggle, which
only selects the dataset label. -/
def chartData (viewMachines : Bool) (hourlyTrends : List HourlyTrend) :
    HourlyChartData :=
  if hourlyTrends.isEmpty then { labels := [], datasets := [] }
  else
    let sortedTrends := List.insertionSort hourLe hourlyTrends
    let labels := sortedTrends.map (fun trend => hourLabel trend.hour)
    let data := sortedTrends.map (fun trend => trend.count)
    { labels := labels
      datasets := [{ label := if viewMachines then "Machine Readings"
                              else "Component Readings"
                     data := data }] }

end HourlyTrendChart

/-! ### CustomerTrendChart aggregation -/

/-- One chart.js dataset of the customer chart (accumulated values are JS
numbers holding rounded integers). -/
structure CustomerDataset where
  label : String
  data : List Int
deriving DecidableEq

/-- The chart-ready result of the customer aggregation. -/
structure CustomerChartData where
  labels : List String
  datasets : List CustomerDataset
deriving DecidableEq

/-- JS `Math.round` (round half towards positive infinity) on a rational. -/
def jsRound (q : ℚ) : ℤ := ⌊q + 1 / 2⌋

/-- JS `[...new Set(l)]`: deduplication keeping first occurrences in order. -/
def jsSetDedup (l : List String) : List String :=
  l.foldl (fun acc x => if x ∈ acc then acc else acc ++ [x]) []

/-- Abbreviated month name of a zero-padded month literal, as produced by
date-fns `format(.., 'MMM')`. -/
def monthAbbrev : String → String
  | "01" => "Jan" | "02" => "Feb" | "03" => "Mar" | "04" => "Apr"
  | "05" => "May" | "06" => "Jun" | "07" => "Jul" | "08" => "Aug"
  | "09" => "Sep" | "10" => "Oct" | "11" => "Nov" | "12" => "Dec"
  | _ => ""

/-- Modelled date-fns `format(parseISO(iso), 'MMM dd')` for an ISO
`yyyy-MM-dd` string: the month and day components are read positionally. -/
def formatMMMdd (iso : String) : String :=
  let cs := iso.toList
  monthAbbrev (String.mk ((cs.drop 5).take 2)) ++ " " ++
    String.mk ((cs.drop 8).take 2)

/-- Month number of an abbreviated month name (1-based; 0 if unknown). -/
def monthNumber : String → Nat
  | "Jan" => 1 | "Feb" => 2 | "Mar" => 3 | "Apr" => 4
  | "May" => 5 | "Jun" => 6 | "Jul" => 7 | "Aug" => 8
  | "Sep" => 9 | "Oct" => 10 | "Nov" => 11 | "Dec" => 12
  | _ => 0

/-- Accumulating decimal parser over a character list. -/
def digitsToNatAux : List Char → Nat → Option Nat
  | [], acc => some acc
  | c :: cs, acc =>
      if c.isDigit then digitsToNatAux cs (acc * 10 + (c.toNat - 48)) else none

/-- Decimal value of a non-empty all-digit character list. -/
def digitsToNat : List Char → Option Nat
  | [] => none
  | c :: cs => digitsToNatAux (c :: cs) 0

/-- Sort key of a `MMM dd` label, modelling `new Date(label).getTime()`,
which is monotone in (month, day). -/
def labelKey (label : String) : Nat :=
  let cs := label.toList
  monthNumber (String.mk (cs.take 3)) * 100 +
    (digitsToNat ((cs.drop 4).take 2)).getD 0

/-- Comparison used to sort `allDates`. -/
def dateLe (a b : String) : Prop := labelKey a ≤ labelKey b

instance : DecidableRel dateLe := fun a b => Nat.decLe (labelKey a) (labelKey b)

instance : IsTotal String dateLe := ⟨fun a b => Nat.le_total (labelKey a) (labelKey b)⟩

instance : IsTrans String dateLe := ⟨fun _ _ _ h h' => Nat.le_trans h h'⟩

/-- The per-(customer, date) accumulator object initialised to zero counts. -/
structure CustomerAccum where
  Normal : Int
  Satisfactory : Int
  Alert : Int
  Unacceptable : Int
deriving DecidableEq

/-- The zero-initialised accumulator. -/
def zeroAccum : CustomerAccum :=
  { Normal := 0, Satisfactory := 0, Alert := 0, Unacceptable := 0 }

/-- Sum of the four fields, as `Object.values(trend).reduce((s, c) => s + c)`. -/
def CustomerAccum.total (a : CustomerAccum) : Int :=
  a.Normal + a.Satisfactory + a.Alert + a.Unacceptable

/-- One status entry's increment:
`Math.round((count / customers.length) * (index + 1))`. -/
def roundedShare (n index count : Nat) : Int :=
  jsRound (((count : ℚ) / (n : ℚ)) * ((index : ℚ) + 1))

/-- Adds each status's rounded share to the accumulator. -/
def addShare (n index : Nat) (c : StatusCounts) (acc : CustomerAccum) :
    CustomerAccum :=
  { Normal := acc.Normal + roundedShare n index c.Normal
    Satisfactory := acc.Satisfactory + roundedShare n index c.Satisfactory
    Alert := acc.Alert + roundedShare n index c.Alert
    Unacceptable := acc.Unacceptable + roundedShare n index c.Unacceptable }

/-- JS `Map` update: replace the value at an existing key in place, or append
a fresh key at the end with the value `f` applied to the zero accumulator. -/
def upsert : List (String × CustomerAccum) → String →
    (CustomerAccum → CustomerAccum) → CustomerAccum →
    List (String × CustomerAccum)
  | [], k, _, v0 => [(k, v0)]
  | (k', v) :: rest, k, f, v0 =>
      if k' = k then (k', f v) :: rest else (k', v) :: upsert rest k f v0

/-- JS `Map.get`. -/
def alookup : List (String × CustomerAccum) → String → Option CustomerAccum
  | [], _ => none
  | (k', v) :: rest, k => if k' = k then some v else alookup rest k

/-- One iteration of the accumulation loop of CustomerTrendChart.tsx for the
customer at 0-based `index` among `n` distinct customers: insert a zero
accumulator at the trend point's `MMM dd` label if absent, then add each
status's rounded share. -/
def accumStep (n index : Nat) (acc : List (String × CustomerAccum))
    (t : StatusTrend) : List (String × CustomerAccum) :=
  upsert acc (formatMMMdd t.date) (addShare n index t.status_counts)
    (addShare n index t.status_counts zeroAccum)

/-- The accumulation loop of CustomerTrendChart.tsx over all trend points,
for one customer. -/
def accumTrends (n index : Nat) (trends : List StatusTrend) :
    List (String × CustomerAccum) :=
  trends.foldl (accumStep n index) []

/-- The dataset value at one date: total of the accumulator if the label is
present, 0 otherwise (`if (!trend) return 0`). -/
def totalD : Option CustomerAccum → Int
  | some trend => trend.total
  | none => 0

namespace CustomerTrendChart

/-- chartData of CustomerTrendChart.tsx: one dataset per distinct customer
of `machines`; each dataset value is the total of the accumulated
per-status rounded shares at that date label (0 for an absent label). -/
def chartData (machines : List Machine) (statusTrends : List StatusTrend) :
    CustomerChartData :=
  if statusTrends.isEmpty then { labels := [], datasets := [] }
  else
    let customers := jsSetDedup (machines.map (fun m => m.customer))
    let allDates := List.insertionSort dateLe
      (jsSetDedup (statusTrends.map (fun t => formatMMMdd t.date)))
    let datasets := customers.enum.map (fun p =>
      let customerTrends := accumTrends customers.length p.fst statusTrends
      { label := p.snd
        data := allDates.map (fun date =>
          totalD (alookup customerTrends date)) : CustomerDataset })
    { labels := allDates, datasets := datasets }

end CustomerTrendChart

/-! ### theorems -/

/-- C10: for every snapshot state and every payload (including null), the
SET_ERROR transition of dashboardReducer returns the state with `error` set
to the payload and `loading` forced to false, all other fields unchanged; in
particular clearing the error (payload none) also forces loading to false. -/
theorem claim_C10_set_error (today : Date) (s : DashboardState)
    (p : Option String) :
    dashboardReducer today s (DashboardAction.SET_ERROR p) =
      { s with error := p, loading := false } :=
  rfl

/-- C5: for every prior filter state and machines array, clearFilters resets
all five criteria fields to empty, sets filteredMachines equal to machines
exactly (all other fields unchanged), unconditionally, and issues no network
request. -/
theorem claim_C5_clear_filters (today : Date) (s : DashboardState) :
    clearFiltersAction today s =
      ({ s with searchFilters := emptyFilters
                filteredMachines := s.machines }, []) :=
  rfl

/-- C6: for every searchMachines invocation whose server-side search call
fails, the error field remains unchanged, filteredMachines becomes the
client-side fallback filter's result over the captured machines array, and
loading ends as false. -/
theorem claim_C6_search_failure_fallback (today : Date) (s : DashboardState)
    (filters : PartialFilters) (msg : String) :
    (searchMachines today s filters (Except.error msg)).fst.error = s.error ∧
    (searchMachines today s filters (Except.error msg)).fst.filteredMachines =
      clientFilterMachines filters s.machines ∧
    (searchMachines today s filters (Except.error msg)).fst.loading = false :=
  ⟨rfl, rfl, rfl⟩

/-- C1: for every date-range load in which any of the four parallel gateway
calls fails, the snapshot's machines, filteredMachines, kpiStats,
statusTrends and hourlyTrends remain at their pre-trigger values, error is
set to a non-null message (the rejection's message), and loading ends as
false. -/
theorem claim_C1_load_failure_keeps_data (today : Date) (s : DashboardState)
    (date : Date) (rm : Except String (List Machine))
    (rk : Except String KPIStats) (rs : Except String (List StatusTrend))
    (rh : Except String (List HourlyTrend))
    (h : isErr rm = true ∨ isErr rk = true ∨ isErr rs = true ∨
         isErr rh = true) :
    (loadDashboardData today s date rm rk rs rh).fst.machines = s.machines ∧
    (loadDashboardData today s date rm rk rs rh).fst.filteredMachines =
      s.filteredMachines ∧
    (loadDashboardData today s date rm rk rs rh).fst.kpiStats = s.kpiStats ∧
    (loadDashboardData today s date rm rk rs rh).fst.statusTrends =
      s.statusTrends ∧
    (loadDashboardData today s date rm rk rs rh).fst.hourlyTrends =
      s.hourlyTrends ∧
    (∃ msg, (loadDashboardData today s date rm rk rs rh).fst.error =
      some msg) ∧
    (loadDashboardData today s date rm rk rs rh).fst.loading = false := by
  obtain ⟨msg, hmsg⟩ : ∃ msg, promiseAll4 rm rk rs rh = Except.error msg := by
    rcases rm with e | a
    · exact ⟨e, rfl⟩
    rcases rk with e | b
    · exact ⟨e, rfl⟩
    rcases rs with e | c
    · exact ⟨e, rfl⟩
    rcases rh with e | d
    · exact ⟨e, rfl⟩
    · simp [isErr] at h
  simp [loadDashboardData, loadDispatches, hmsg, dashboardReducer]

/-- Witness for C1 at a concrete input: the machines call fails while the
other three succeed, starting from a non-trivial snapshot. -/
theorem claim_C1_witness :
    ((loadDashboardData ⟨2025, 1, 1⟩
        { initialState ⟨2025, 1, 1⟩ with
            machines := [{ _id := "m1", machineName := "Pump 1",
                           customer := "Acme", area := "A", subarea := "S1",
                           status := "Normal" }]
            filteredMachines := [{ _id := "m1", machineName := "Pump 1",
                                   customer := "Acme", area := "A",
                                   subarea := "S1", status := "Normal" }] }
        ⟨2025, 1, 15⟩ (Except.error "Network Error")
        (Except.ok ⟨0, ⟨0, 0, 0, 0⟩⟩) (Except.ok []) (Except.ok [])).fst.machines
      = [{ _id := "m1", machineName := "Pump 1", customer := "Acme",
           area := "A", subarea := "S1", status := "Normal" }]) ∧
    (∃ msg, (loadDashboardData ⟨2025, 1, 1⟩
        { initialState ⟨2025, 1, 1⟩ with
            machines := [{ _id := "m1", machineName := "Pump 1",
                           customer := "Acme", area := "A", subarea := "S1",
                           status := "Normal" }]
            filteredMachines := [{ _id := "m1", machineName := "Pump 1",
                                   customer := "Acme", area := "A",
                                   subarea := "S1", status := "Normal" }] }
        ⟨2025, 1, 15⟩ (Except.error "Network Error")
        (Except.ok ⟨0, ⟨0, 0, 0, 0⟩⟩) (Except.ok []) (Except.ok [])).fst.error
      = some msg) := by
  have h := claim_C1_load_failure_keeps_data ⟨2025, 1, 1⟩
    { initialState ⟨2025, 1, 1⟩ with
        machines := [{ _id := "m1", machineName := "Pump 1",
                       customer := "Acme", area := "A", subarea := "S1",
                       status := "Normal" }]
        filteredMachines := [{ _id := "m1", machineName := "Pump 1",
                               customer := "Acme", area := "A",
                               subarea := "S1", status := "Normal" }] }
    ⟨2025, 1, 15⟩ (Except.error "Network Error")
    (Except.ok ⟨0, ⟨0, 0, 0, 0⟩⟩) (Except.ok []) (Except.ok [])
    (Or.inl rfl)
  exact ⟨h.1, h.2.2.2.2.2.1⟩

/-- Sample machine used in concrete scenarios. -/
def machineA : Machine :=
  { _id := "m1", machineName := "Pump 1", customer := "Acme", area := "A",
    subarea := "S1", status := "Normal" }

/-- Sample machine with a different identity. -/
def machineB : Machine :=
  { _id := "m2", machineName := "Fan 2", customer := "Zeta", area := "B",
    subarea := "S2", status := "Alert" }

/-- Sample KPI payload. -/
def kpiZero : KPIStats := { total_readings := 0, status_counts := ⟨0, 0, 0, 0⟩ }

/-- The filteredMachines-is-a-subset-of-machines relation, compared by the
`_id` identity. -/
def idSubset (xs ys : List Machine) : Prop :=
  ∀ m ∈ xs, m._id ∈ ys.map (fun m' => m'._id)

/-- The states reachable through the four exposed actions, under the
assumption that every successful server-side search returns only machines
already present (by identity) in the machines array it was issued against. -/
inductive ReachableSub (today : Date) : DashboardState → Prop where
  | init : ReachableSub today (initialState today)
  | load (s : DashboardState) (date : Date)
      (rm : Except String (List Machine)) (rk : Except String KPIStats)
      (rs : Except String (List StatusTrend))
      (rh : Except String (List HourlyTrend)) (h : ReachableSub today s) :
      ReachableSub today (loadDashboardData today s date rm rk rs rh).fst
  | search (s : DashboardState) (filters : PartialFilters)
      (res : Except String (List Machine)) (h : ReachableSub today s)
      (hres : ∀ ms, res = Except.ok ms → idSubset ms s.machines) :
      ReachableSub today (searchMachines today s filters res).fst
  | clear (s : DashboardState) (h : ReachableSub today s) :
      ReachableSub today (clearFiltersAction today s).fst
  | setDate (s : DashboardState) (date : Date)
      (rm : Except String (List Machine)) (rk : Except String KPIStats)
      (rs : Except String (List StatusTrend))
      (rh : Except String (List HourlyTrend)) (h : ReachableSub today s) :
      ReachableSub today (setSelectedDate today s date rm rk rs rh).fst

/-- Shape of the final state of a date-range load: on success the five data
fields are replaced atomically (and filters are implicitly reset since
SET_MACHINES also overwrites filteredMachines), on failure only error and
loading change. -/
theorem load_fst_eq (today : Date) (s : DashboardState) (date : Date)
    (rm : Except String (List Machine)) (rk : Except String KPIStats)
    (rs : Except String (List StatusTrend))
    (rh : Except String (List HourlyTrend)) :
    (loadDashboardData today s date rm rk rs rh).fst =
      match promiseAll4 rm rk rs rh with
      | .ok d =>
          { s with machines := d.machines, filteredMachines := d.machines,
                   kpiStats := some d.kpiStats,
                   statusTrends := d.statusTrends,
                   hourlyTrends := d.hourlyTrends,
                   loading := false, error := none }
      | .error msg => { s with error := some msg, loading := false } := by
  cases hp : promiseAll4 rm rk rs rh <;>
    simp [loadDashboardData, loadDispatches, hp, dashboardReducer]

/-- searchMachines never modifies the machines array. -/
theorem search_fst_machines (today : Date) (s : DashboardState)
    (filters : PartialFilters) (res : Except String (List Machine)) :
    (searchMachines today s filters res).fst.machines = s.machines := by
  cases res <;> rfl

/-- The filteredMachines produced by searchMachines: the backend result
verbatim on success, the client-side fallback filter on failure. -/
theorem search_fst_filtered (today : Date) (s : DashboardState)
    (filters : PartialFilters) (res : Except String (List Machine)) :
    (searchMachines today s filters res).fst.filteredMachines =
      match res with
      | .ok ms => ms
      | .error _ => clientFilterMachines filters s.machines := by
  cases res <;> rfl

/-- C3, counterexample to the claim as stated: after a successful full fetch
of [machineA], a searchMachines call whose backend result is [machineB] (an
identity absent from the fetch) is applied verbatim, so the reachable state
has machineB in filteredMachines although its identity is absent from
machines. -/
theorem claim_C3_counterexample :
    machineB ∈ ((searchMachines ⟨2025, 1, 1⟩
        (loadDashboardData ⟨2025, 1, 1⟩ (initialState ⟨2025, 1, 1⟩)
          ⟨2025, 1, 15⟩ (Except.ok [machineA]) (Except.ok kpiZero)
          (Except.ok []) (Except.ok [])).fst
        {} (Except.ok [machineB])).fst).filteredMachines ∧
    machineB._id ∉ (((searchMachines ⟨2025, 1, 1⟩
        (loadDashboardData ⟨2025, 1, 1⟩ (initialState ⟨2025, 1, 1⟩)
          ⟨2025, 1, 15⟩ (Except.ok [machineA]) (Except.ok kpiZero)
          (Except.ok []) (Except.ok [])).fst
        {} (Except.ok [machineB])).fst).machines.map (fun m => m._id)) := by
  decide

/-- C3, amended: in every state reachable through the four exposed actions,
filteredMachines is a subset of machines by identity, provided every
successful server-side search returns only identities already present in the
machines array (a successful search result is applied verbatim, so without
that proviso the invariant fails, as the counterexample shows); the
fallback, clear, load and set-date transitions preserve it unconditionally. -/
theorem claim_C3_subset_invariant (today : Date) (s : DashboardState)
    (h : ReachableSub today s) : idSubset s.filteredMachines s.machines := by
  induction h with
  | init => intro m hm; simp [initialState] at hm
  | load s' date rm rk rs rh _ ih =>
      rw [load_fst_eq]
      cases hp : promiseAll4 rm rk rs rh with
      | ok d => intro m hm; simp at hm ⊢; exact ⟨m, hm, rfl⟩
      | error msg => intro m hm; exact ih m hm
  | search s' filters res _ hres ih =>
      intro m hm
      rw [search_fst_machines]
      rw [search_fst_filtered] at hm
      cases res with
      | ok ms => exact hres ms rfl m hm
      | error msg =>
          simp only [clientFilterMachines] at hm
          have hmem : m ∈ s'.machines := List.mem_of_mem_filter hm
          exact List.mem_map.mpr ⟨m, hmem, rfl⟩
  | clear s' _ ih => intro m hm; exact List.mem_map.mpr ⟨m, hm, rfl⟩
  | setDate s' date rm rk rs rh _ ih =>
      show idSubset (loadDashboardData today _ date rm rk rs rh).fst.filteredMachines
        (loadDashboardData today _ date rm rk rs rh).fst.machines
      rw [load_fst_eq]
      cases hp : promiseAll4 rm rk rs rh with
      | ok d => intro m hm; simp at hm ⊢; exact ⟨m, hm, rfl⟩
      | error msg => intro m hm; exact ih m hm

/-- Witness for C3 at a concrete reachable state: a full fetch of [machineA]
followed by a successful server search returning [machineA] (contained in the
fetch), where the invariant holds with a non-empty filtered set. -/
theorem claim_C3_witness :
    idSubset ((searchMachines ⟨2025, 1, 1⟩
        (loadDashboardData ⟨2025, 1, 1⟩ (initialState ⟨2025, 1, 1⟩)
          ⟨2025, 1, 15⟩ (Except.ok [machineA]) (Except.ok kpiZero)
          (Except.ok []) (Except.ok [])).fst
        {} (Except.ok [machineA])).fst).filteredMachines
      ((searchMachines ⟨2025, 1, 1⟩
        (loadDashboardData ⟨2025, 1, 1⟩ (initialState ⟨2025, 1, 1⟩)
          ⟨2025, 1, 15⟩ (Except.ok [machineA]) (Except.ok kpiZero)
          (Except.ok []) (Except.ok [])).fst
        {} (Except.ok [machineA])).fst).machines :=
  claim_C3_subset_invariant _ _
    (ReachableSub.search _ _ _
      (ReachableSub.load _ _ _ _ _ _ ReachableSub.init)
      (by intro ms hms; injection hms with h; subst h;
          simp only [idSubset]; decide))

/-- A pending timer set by `p` is cancelled by every following edit when all
consecutive events are less than 300ms apart, so only the last edit's timer
can fire. -/
theorem debounceAux_pending (p : EditEvent) (es : List EditEvent)
    (h : List.Chain' (fun a b => a.time ≤ b.time ∧ b.time < a.time + 300)
      (p :: es)) :
    debounceAux (some p) es =
      if shouldFire (es.getLastD p) then
        [((es.getLastD p).time + 300, criteriaOf (es.getLastD p))]
      else [] := by
  induction es generalizing p with
  | nil => rfl
  | cons e rest ih =>
      rw [List.chain'_cons] at h
      rw [List.getLastD_cons]
      show (if p.time + 300 ≤ e.time then _ else debounceAux (some e) rest) = _
      rw [if_neg (by omega)]
      exact ih e h.2

/-- C7, counterexample to the claim as stated: three filter edits 100ms
apart whose fields are all empty (e.g. the user erased the search text)
trigger no search call at all, not exactly one, because the debounced effect
fires only when the search term or some local filter value is truthy. -/
theorem claim_C7_counterexample :
    debounceRun [⟨0, "", emptyFilters⟩, ⟨100, "", emptyFilters⟩,
      ⟨200, "", emptyFilters⟩] = [] := by
  decide

/-- C7, amended: for every non-empty sequence of filter edits in which each
edit arrives within 300ms of the previous one, each new edit cancels the
pending fire and restarts the window, and once the 300ms quiet period
elapses exactly one search call is triggered with the criteria of the last
edit, provided the last edit's search term or some local filter field is
non-empty; otherwise no call fires. -/
theorem claim_C7_debounce (es : List EditEvent) (h : es ≠ [])
    (hchain : List.Chain'
      (fun a b => a.time ≤ b.time ∧ b.time < a.time + 300) es) :
    debounceRun es =
      if shouldFire (es.getLast h) then
        [((es.getLast h).time + 300, criteriaOf (es.getLast h))]
      else [] := by
  match es, h with
  | e :: rest, _ =>
      rw [List.getLast_eq_getLastD]
      exact debounceAux_pending e rest hchain

/-- Witness for C7 at a concrete input: three edits 100ms apart, the last
one typing "pump", produce exactly one search call 300ms after the last
edit, carrying the last edit's criteria. -/
theorem claim_C7_witness :
    debounceRun [⟨0, "", emptyFilters⟩, ⟨100, "", emptyFilters⟩,
      ⟨200, "pump", emptyFilters⟩] =
      [(500, { emptyFilters with machineName := "pump" })] := by
  have h := claim_C7_debounce
    [⟨0, "", emptyFilters⟩, ⟨100, "", emptyFilters⟩,
     ⟨200, "pump", emptyFilters⟩] (by decide)
    (by simp [List.chain'_cons])
  exact h.trans (by decide)

/-- C8: for every non-empty list of hourly trend points the aggregation
outputs the points sorted ascending by hour (a sorted permutation of the
input), labels each with the zero-padded 24-hour string of its hour, and
passes every count through unchanged; the claim's concrete example holds
verbatim; and an empty input yields the empty labels/datasets result. -/
theorem claim_C8_hourly :
    (∀ (vm : Bool) (trends : List HourlyTrend), trends ≠ [] →
      ∃ st : List HourlyTrend, st.Perm trends ∧ List.Sorted hourLe st ∧
        (HourlyTrendChart.chartData vm trends).labels =
          st.map (fun t => HourlyTrendChart.hourLabel t.hour) ∧
        (HourlyTrendChart.chartData vm trends).datasets =
          [{ label := if vm then "Machine Readings" else "Component Readings"
             data := st.map (fun t => t.count) }]) ∧
    (∀ vm : Bool,
      HourlyTrendChart.chartData vm [] = { labels := [], datasets := [] }) ∧
    HourlyTrendChart.chartData true [⟨5, 3⟩, ⟨2, 1⟩] =
      { labels := ["02:00", "05:00"]
        datasets := [{ label := "Machine Readings", data := [1, 3] }] } := by
  refine ⟨?_, fun vm => rfl, by decide⟩
  intro vm trends h
  have hne : trends.isEmpty = false := by
    cases trends with
    | nil => exact absurd rfl h
    | cons a l => rfl
  refine ⟨List.insertionSort hourLe trends, List.perm_insertionSort _ _,
    List.sorted_insertionSort _ _, ?_, ?_⟩ <;>
    simp [HourlyTrendChart.chartData, hne]

/-- Witness for C8 at the claim's concrete input. -/
theorem claim_C8_witness :
    ∃ st : List HourlyTrend, st.Perm [⟨5, 3⟩, ⟨2, 1⟩] ∧
      List.Sorted hourLe st ∧
      (HourlyTrendChart.chartData true [⟨5, 3⟩, ⟨2, 1⟩]).labels =
        st.map (fun t => HourlyTrendChart.hourLabel t.hour) ∧
      (HourlyTrendChart.chartData true [⟨5, 3⟩, ⟨2, 1⟩]).datasets =
        [{ label := if true then "Machine Readings" else "Component Readings"
           data := st.map (fun t => t.count) }] :=
  claim_C8_hourly.1 true [⟨5, 3⟩, ⟨2, 1⟩] (by decide)

/-- A constrained (present and non-empty) criteria field imposes `P` on its
value; an omitted or empty field always matches. -/
def optConstraint (o : Option String) (P : String → Prop) : Prop :=
  ∀ v, o = some v → v ≠ "" → P v

instance instDecidableOptConstraint (o : Option String) (P : String → Prop)
    [DecidablePred P] : Decidable (optConstraint o P) :=
  match o with
  | none => isTrue (fun _ hv => nomatch hv)
  | some s =>
      if hs : s = "" then
        isTrue (fun v hv hne => by
          injection hv with h; subst h; exact absurd hs hne)
      else
        decidable_of_iff (P s)
          ⟨fun hp v hv _ => by injection hv with h; subst h; exact hp,
           fun hall => hall s rfl hs⟩

/-- Modelled from the claim's wording (C4): a record matches iff every
constrained (non-empty) criteria field matches — machineName by
case-insensitive substring match against either the machine's display name
or its identity, the other four by exact equality — with empty criteria
fields always matching. -/
def specMatches (f : PartialFilters) (m : Machine) : Prop :=
  optConstraint f.machineName (fun q =>
    strIncludes (strToLower m.machineName) (strToLower q) = true ∨
    strIncludes (strToLower m._id) (strToLower q) = true) ∧
  optConstraint f.customer (fun v => m.customer = v) ∧
  optConstraint f.area (fun v => m.area = v) ∧
  optConstraint f.subarea (fun v => m.subarea = v) ∧
  optConstraint f.status (fun v => m.status = v)

instance (f : PartialFilters) (m : Machine) : Decidable (specMatches f m) := by
  unfold specMatches; infer_instance

/-- An exact-equality clause of matchesFilters is the corresponding
constrained-field condition. -/
theorem eqClause_iff (o : Option String) (x : String) :
    (jsFalsy o || decide (x = o.getD "")) = true ↔
      optConstraint o (fun v => x = v) := by
  cases o with
  | none => simp [jsFalsy, optConstraint]
  | some s => by_cases hs : s = "" <;> simp [jsFalsy, optConstraint, hs]

/-- The free-text clause of matchesFilters is the corresponding
constrained-field condition. -/
theorem searchClause_iff (o : Option String) (hay1 hay2 : String) :
    (jsFalsy o || strIncludes hay1 (strToLower (o.getD "")) ||
      strIncludes hay2 (strToLower (o.getD ""))) = true ↔
      optConstraint o (fun q =>
        strIncludes hay1 (strToLower q) = true ∨
        strIncludes hay2 (strToLower q) = true) := by
  cases o with
  | none => simp [jsFalsy, optConstraint]
  | some s => by_cases hs : s = "" <;> simp [jsFalsy, optConstraint, hs, Bool.or_assoc]

/-- The fallback predicate of the source agrees with the claim's matching
predicate on every filter record and machine. -/
theorem matchesFilters_iff (f : PartialFilters) (m : Machine) :
    matchesFilters f m = true ↔ specMatches f m := by
  obtain ⟨fc, fa, fsub, fmn, fst⟩ := f
  simp only [matchesFilters, specMatches, Bool.and_eq_true, and_assoc]
  exact and_congr
    (searchClause_iff fmn (strToLower m.machineName) (strToLower m._id))
    (and_congr (eqClause_iff fc m.customer)
      (and_congr (eqClause_iff fa m.area)
        (and_congr (eqClause_iff fsub m.subarea)
          (eqClause_iff fst m.status))))

/-- A machine whose display name matches the spec's case-insensitivity
example. -/
def pumpMachine : Machine :=
  { _id := "m7", machineName := "PUMP-01", customer := "Acme", area := "A",
    subarea := "S1", status := "Normal" }

/-- C4: for every machines array and filter criteria record, the client-side
fallback filter returns exactly the records satisfying the claim's matching
predicate (specMatches), preserving the original relative order (the result
is a sublist of the input); and the case-insensitivity example holds:
criteria machineName "pump" matches the record named "PUMP-01". -/
theorem claim_C4_fallback_filter :
    (∀ (filters : PartialFilters) (machines : List Machine),
      clientFilterMachines filters machines =
        machines.filter (fun m => decide (specMatches filters m)) ∧
      (clientFilterMachines filters machines).Sublist machines) ∧
    matchesFilters { machineName := some "pump" } pumpMachine = true := by
  refine ⟨fun filters machines => ⟨?_, List.filter_sublist _⟩, by decide⟩
  apply List.filter_congr
  intro m _
  have h := matchesFilters_iff filters m
  rcases hb : matchesFilters filters m with _ | _
  · symm
    rw [decide_eq_false_iff_not]
    intro hs
    exact absurd (h.mpr hs) (by simp [hb])
  · symm
    rw [decide_eq_true_eq]
    exact h.mp hb

/-- The spec formula of C9: the value for the customer with 0-based `index`
among `n` customers is the sum over the four statuses of
round((count / n) * (index + 1)). -/
def customerShareInt (n index : Nat) (c : StatusCounts) : Int :=
  roundedShare n index c.Normal + roundedShare n index c.Satisfactory +
    roundedShare n index c.Alert + roundedShare n index c.Unacceptable

/-- Adding the per-status rounded shares adds the C9 formula's value to the
accumulator total. -/
theorem total_addShare (n index : Nat) (c : StatusCounts)
    (acc : CustomerAccum) :
    (addShare n index c acc).total =
      acc.total + customerShareInt n index c := by
  simp only [addShare, CustomerAccum.total, customerShareInt]
  ring

/-- The zero accumulator's total. -/
theorem total_zeroAccum : zeroAccum.total = 0 := rfl

/-- Lookup after a map update. -/
theorem alookup_upsert (m : List (String × CustomerAccum)) (k : String)
    (f : CustomerAccum → CustomerAccum) (v0 : CustomerAccum) (d : String) :
    alookup (upsert m k f v0) d =
      if k = d then
        (match alookup m k with
         | some v => some (f v)
         | none => some v0)
      else alookup m d := by
  induction m with
  | nil => by_cases h : k = d <;> simp [upsert, alookup, h]
  | cons p rest ih =>
      obtain ⟨k', v⟩ := p
      by_cases h1 : k' = k <;> by_cases h2 : k = d <;>
        by_cases h3 : k' = d <;> simp_all [upsert, alookup]

/-- The looked-up total of the accumulation loop over any initial
accumulator: the initial total plus the summed C9 shares of the trend points
whose label is the looked-up date. -/
theorem totalD_accumTrends_aux (n index : Nat) (d : String)
    (trends : List StatusTrend) :
    ∀ acc : List (String × CustomerAccum),
      totalD (alookup (trends.foldl (accumStep n index) acc) d) =
        totalD (alookup acc d) +
          ((trends.filter (fun t => formatMMMdd t.date = d)).map
            (fun t => customerShareInt n index t.status_counts)).sum := by
  induction trends with
  | nil => intro acc; simp
  | cons t ts ih =>
      intro acc
      rw [List.foldl_cons, ih]
      by_cases hd : formatMMMdd t.date = d
      · rw [List.filter_cons_of_pos (by simpa using hd)]
        cases hacc : alookup acc d <;>
          simp [accumStep, alookup_upsert, hd, hacc, totalD, total_addShare,
            total_zeroAccum] <;> omega
      · rw [List.filter_cons_of_neg (by simpa using hd)]
        simp [accumStep, alookup_upsert, hd]

/-- The dataset value of the customer aggregation at a date label is the sum
of the C9 shares of the trend points carrying that label. -/
theorem totalD_accumTrends (n index : Nat) (d : String)
    (trends : List StatusTrend) :
    totalD (alookup (accumTrends n index trends) d) =
      ((trends.filter (fun t => formatMMMdd t.date = d)).map
        (fun t => customerShareInt n index t.status_counts)).sum := by
  have h := totalD_accumTrends_aux n index d trends []
  simpa [accumTrends, alookup, totalD] using h

/-- getD of an enumerated map at an in-range index. -/
theorem getD_map_enum {α β : Type} (l : List α) (F : Nat × α → β) (i : Nat)
    (hi : i < l.length) (db : β) (da : α) :
    (l.enum.map F).getD i db = F (i, l.getD i da) := by
  rw [List.getD_eq_getElem _ _ (by simpa [List.enum_length] using hi)]
  simp only [List.getElem_map, List.getElem_enum]
  rw [List.getD_eq_getElem _ _ hi]

/-- getD of a mapped list at an in-range index. -/
theorem getD_map {α β : Type} (l : List α) (g : α → β) (j : Nat)
    (hj : j < l.length) (db : β) (da : α) :
    (l.map g).getD j db = g (l.getD j da) := by
  rw [List.getD_eq_getElem _ _ (by simpa using hj)]
  simp only [List.getElem_map]
  rw [List.getD_eq_getElem _ _ hj]

/-- Closed form of the customer aggregation on a non-empty trend series. -/
theorem chartData_eq (machines : List Machine) (trends : List StatusTrend)
    (hne : trends.isEmpty = false) :
    CustomerTrendChart.chartData machines trends =
      { labels := List.insertionSort dateLe
          (jsSetDedup (trends.map (fun t => formatMMMdd t.date)))
        datasets := (jsSetDedup (machines.map (fun m => m.customer))).enum.map
          (fun p =>
            { label := p.snd
              data := (List.insertionSort dateLe
                  (jsSetDedup (trends.map (fun t => formatMMMdd t.date)))).map
                (fun date => totalD (alookup
                  (accumTrends
                    (jsSetDedup (machines.map (fun m => m.customer))).length
                    p.fst trends) date)) }) } := by
  simp [CustomerTrendChart.chartData, hne]

/-- C9: for every non-empty status-trend series and machines array, the
customer aggregation produces one series per distinct customer (in first
occurrence order), and whenever a date label of the output is carried by
exactly one trend point, the value of the customer with 0-based index i at
that label is the sum over statuses of round((count / N) * (i + 1)), where N
is the number of distinct customers. -/
theorem claim_C9_customer_trend (machines : List Machine)
    (trends : List StatusTrend) (h : trends ≠ []) :
    (CustomerTrendChart.chartData machines trends).datasets.length =
      (jsSetDedup (machines.map (fun m => m.customer))).length ∧
    ∀ i, i < (jsSetDedup (machines.map (fun m => m.customer))).length →
      ((CustomerTrendChart.chartData machines trends).datasets.getD i
          { label := "", data := [] }).label =
        (jsSetDedup (machines.map (fun m => m.customer))).getD i "" ∧
      ∀ j, j < (CustomerTrendChart.chartData machines trends).labels.length →
        ∀ t, trends.filter (fun u => formatMMMdd u.date =
            (CustomerTrendChart.chartData machines trends).labels.getD j "")
            = [t] →
          ((CustomerTrendChart.chartData machines trends).datasets.getD i
              { label := "", data := [] }).data.getD j 0 =
            customerShareInt
              (jsSetDedup (machines.map (fun m => m.customer))).length i
              t.status_counts := by
  have hne : trends.isEmpty = false := by
    cases trends with
    | nil => exact absurd rfl h
    | cons a l => rfl
  rw [chartData_eq machines trends hne]
  refine ⟨by simp [List.enum_length], ?_⟩
  intro i hi
  refine ⟨?_, ?_⟩
  · rw [getD_map_enum _ _ _ hi _ ""]
  · intro j hj t hfilt
    rw [getD_map_enum _ _ _ hi _ ""] at *
    rw [getD_map _ _ _ hj _ ""]
    rw [totalD_accumTrends, hfilt]
    simp

/-- Witness for C9 at a concrete input: two customers (Acme at index 0, Zeta
at index 1) and two trend points on distinct dates; the theorem is applied
at Zeta's dataset and the first date label, with every hypothesis discharged
by evaluation. -/
theorem claim_C9_witness :
    ((CustomerTrendChart.chartData [machineA, machineB]
        [{ date := "2025-01-02", status_counts := ⟨2, 0, 1, 0⟩ },
         { date := "2025-01-05", status_counts := ⟨1, 1, 1, 1⟩ }]).datasets.getD
      1 { label := "", data := [] }).data.getD 0 0 =
      customerShareInt 2 1 ⟨2, 0, 1, 0⟩ := by
  have h := claim_C9_customer_trend [machineA, machineB]
    [{ date := "2025-01-02", status_counts := ⟨2, 0, 1, 0⟩ },
     { date := "2025-01-05", status_counts := ⟨1, 1, 1, 1⟩ }] (by decide)
  have h2 := ((h.2 1 (by decide)).2 0 (by decide)
    { date := "2025-01-02", status_counts := ⟨2, 0, 1, 0⟩ } (by decide))
  exact h2

/-- C2: evaluation of the code at the failing input.  In a date-range load,
the state right after the second dispatch (SET_ERROR null, which the reducer
couples with `loading := false`) has loading = false although the fetch is
still pending and no terminal success or failure has been recorded: the
per-dispatch loading profile of a failing load is [false, true, false,
false], not [false, true, true, false] as the claim requires. -/
theorem claim_C2_loading_profile_of_load :
    (loadTrace ⟨2025, 1, 1⟩ (initialState ⟨2025, 1, 1⟩)
        (Except.error "Network Error") (Except.ok ⟨0, ⟨0, 0, 0, 0⟩⟩)
        (Except.ok []) (Except.ok [])).map (fun st => st.loading) =
      [false, true, false, false] := by
  decide

end Dashboard
